import Mathlib

/-!
Shallow embedding of the Sabre analyze controller
(`src/lib/controllers/analyze.js`).

The controller orchestrates a pipeline of calls into external modules
(the MythX client, the solc compiler wrapper, the report module, the
filesystem and the Truffle resolver/profiler).  Those modules are not
part of this development's sources, so each external operation is an
oracle supplied by an explicit `World` record, modelled at the boundary
the specification describes for it.  The controller itself is translated
statement by statement into `analyze`, which records the ordered
sequence of external calls (`Call`) and of console outputs (`Msg`)
together with the process outcome.
-/

namespace Sabre

/-- Error values carried by JavaScript exceptions; the controller only
ever prints them, so a string model suffices. -/
abbrev Err := String

/-- A raw issue object returned by the analysis service; opaque to the
controller, which only passes it to `report.formatIssues`. -/
abbrev Issue := String

/-- The compiled-contract data produced by `compiler.getCompiledContracts`:
the controller reads `contractName` and `functionHashes` and treats the
rest as opaque payload. -/
structure CompiledData where
  contractName : String
  functionHashes : List (String × String)
  payload : String
  deriving DecidableEq, Repr

/-- The solc standard-JSON input built by `compiler.getSolcInput`: the
controller reads `input.sources` and treats the rest as opaque. -/
structure SolcInput where
  sources : List (String × String)
  settings : String
  deriving DecidableEq, Repr

/-- The analysis request body built by `client.getRequestData`; the
controller later overwrites its `sources` and `functionHashes` fields
before handing it to `report.formatIssues`. -/
structure ReqData where
  payload : String
  sources : List (String × String)
  functionHashes : List (String × String)
  deriving DecidableEq, Repr

/-- The command-line arguments the controller reads: `mode`, `format`,
`debug`, the input file path `args._[0]` and the optional contract name
`args._[1]`. -/
structure Args where
  mode : String
  format : String
  debug : Bool
  file : String
  contractTarget : Option String
  deriving DecidableEq, Repr

/-- The environment record destructured at entry: `ethAddress`,
`password` and `apiUrl`.  Credentials are `Option String` so that an
unset variable (JavaScript `undefined`) is distinguishable from a set
one. -/
structure Env where
  ethAddress : Option String
  password : Option String
  apiUrl : String
  deriving DecidableEq, Repr

/-- JavaScript truthiness of a possibly-unset environment string:
`undefined` and the empty string are falsy, all other strings truthy. -/
def jsTruthy : Option String → Bool
  | none => false
  | some s => s ≠ ""

/-- The oracle world: one field per external operation the controller
invokes, each modelled at the boundary contract the specification gives
for it.  Fallible operations return `Except Err`; operations the
specification describes as pure packaging/rendering are total functions.
`getRequestData` is modelled from the spec: the client module is not
among the sources, and §4.5 specifies that submission packages the
artifact, the source list and the requested depth (the mode). -/
structure World where
  /-- `path.resolve(process.cwd(), ·)`. -/
  resolvePath : String → String
  /-- `fs.readFileSync(path, 'utf8')`. -/
  readFile : String → Except Err String
  /-- `compiler.getSolidityVersion(code)`. -/
  getSolidityVersion : String → Except Err String
  /-- `releases[version]` lookup table. -/
  releases : String → String
  /-- `compiler.loadSolcVersion(release)`, yielding `(solcSnapshot, fromCache)`. -/
  loadSolcVersion : String → Except Err (String × Bool)
  /-- `Profiler.resolveAllSources(resolver, [entry], solcSnapshot)`,
  yielding the resolved path-to-body association in discovery order. -/
  resolveAllSources : String → String → Except Err (List (String × String))
  /-- `compiler.getSolcInput(allSources)`. -/
  getSolcInput : List (String × String) → SolcInput
  /-- `compiler.getCompiledContracts(input, solcSnapshot, entry, target)`. -/
  getCompiledContracts : SolcInput → String → String → Option String → Except Err CompiledData
  /-- `client.initialize(apiUrl, ethAddress, password)`, yielding an
  opaque client handle. -/
  initClient : String → String → String → String
  /-- `client.authenticate(mxClient)`. -/
  authenticate : String → Except Err Unit
  /-- Modelled from the spec: `client.getRequestData` (client module not
  among the sources); per §4.5 `submit` packages artifact + source list
  + requested depth (`quick`/`full`), so the request body is a function
  of the compiled data, the source list, the entry path and the mode. -/
  getRequestData : CompiledData → List String → String → String → ReqData
  /-- `client.submitDataForAnalysis(mxClient, data)`, yielding the job UUID. -/
  submitDataForAnalysis : String → ReqData → Except Err String
  /-- `client.awaitAnalysisFinish(mxClient, uuid, initialDelay, timeout)`. -/
  awaitAnalysisFinish : String → String → Nat → Nat → Except Err Unit
  /-- `client.getReport(mxClient, uuid)`. -/
  getReport : String → String → Except Err (List Issue)
  /-- Modelled from the spec: `report.formatIssues` (report module not
  among the sources); §4.6 `reduce` is a pure function from the raw
  finding list (with the request data for source mapping) to the
  deduplicated finding sequence. -/
  formatIssues : ReqData → List Issue → List Issue
  /-- Modelled from the spec: `report.getFormatter` (report module not
  among the sources); §4.6: each formatter is a pure function from the
  deduplicated finding sequence to a text block, selected by name. -/
  getFormatter : String → List Issue → String

/-- One external call made by the controller, with the arguments the
claims need recorded. -/
inductive Call where
  | readFile (path : String)
  | getSolidityVersion (code : String)
  | loadSolcVersion (release : String)
  | resolveAllSources (entry : String)
  | getSolcInput
  | getCompiledContracts (entry : String) (target : Option String)
  | initClient (apiUrl eth pw : String)
  | authenticate (client : String)
  | getRequestData
  | submitData (d : ReqData)
  | awaitAnalysisFinish (client uuid : String) (initialDelay timeout : Nat)
  | getReport (client uuid : String)
  | formatIssues
  | getFormatter (fmt : String)
  | runFormatter
  deriving DecidableEq, Repr

/-- One `console.log` emitted by the controller. -/
inductive Msg where
  | invalidMode
  | invalidFormat
  | sep
  | requestHeader
  | requestBody (d : ReqData)
  | responseHeader
  | responseBody (issues : List Issue)
  | noIssues (file contractName : String)
  | output (s : String)
  | error (e : Err)
  deriving DecidableEq, Repr

/-- The text a console message renders to (colour and `util.inspect`
formatting elided for the opaque bodies). -/
def msgText : Msg → String
  | .invalidMode => "Invalid analysis mode. Available modes: " ++
      String.intercalate ", " ["quick", "full"] ++ "."
  | .invalidFormat => "Invalid output format. Available formats: " ++
      String.intercalate ", " ["text", "stylish", "compact", "table", "html", "json"] ++ "."
  | .sep => "-------------------"
  | .requestHeader => "MythX Request Body:\n"
  | .requestBody d => d.payload
  | .responseHeader => "MythX Response Body:\n"
  | .responseBody issues => String.intercalate "," issues
  | .noIssues file contractName =>
      "✔ No errors/warnings found in " ++ file ++ " for contract: " ++ contractName
  | .output s => s
  | .error e => e

/-- Whether a console message comes from one of the two `args.debug`
logging blocks. -/
def Msg.isDebug : Msg → Bool
  | .sep | .requestHeader | .requestBody _ | .responseHeader | .responseBody _ => true
  | _ => false

/-- How the process ends: `process.exit(code)`, or falling off the end
of the controller normally. -/
inductive Outcome where
  | exited (code : Int)
  | completed
  deriving DecidableEq, Repr

/-- The observable result of one run: the ordered external calls, the
ordered console output, and the process outcome. -/
structure RunResult where
  calls : List Call
  log : List Msg
  outcome : Outcome
  deriving DecidableEq, Repr

/-- The valid analysis modes (`analyze.js` line 16). -/
def modes : List String := ["quick", "full"]

/-- The valid output formats (`analyze.js` line 24). -/
def formats : List String := ["text", "stylish", "compact", "table", "html", "json"]

/-- The trial credentials substituted when either credential is falsy
(`analyze.js` lines 35-38). -/
def trialEthAddress : String := "0x0000000000000000000000000000000000000000"

/-- The trial password (`analyze.js` line 37). -/
def trialPassword : String := "trial"

/-- The eth address actually used (`analyze.js` lines 35-38): the
environment's when both credentials are truthy, the trial address
otherwise. -/
def credEth (env : Env) : String :=
  if jsTruthy env.ethAddress && jsTruthy env.password
  then env.ethAddress.getD "" else trialEthAddress

/-- The password actually used (`analyze.js` lines 35-38). -/
def credPw (env : Env) : String :=
  if jsTruthy env.ethAddress && jsTruthy env.password
  then env.password.getD "" else trialPassword

/-- The initial poll delay in milliseconds (`analyze.js` lines 151-157). -/
def pollDelay (mode : String) : Nat :=
  if mode == "quick" then 20 * 1000 else 300 * 1000

/-- The poll timeout in milliseconds (`analyze.js` lines 151-157). -/
def pollTimeout (mode : String) : Nat :=
  if mode == "quick" then 180 * 1000 else 2400 * 1000

/-- The `args.debug` request logging block (`analyze.js` lines 128-136). -/
def debugRequestLog (debug : Bool) (d : ReqData) : List Msg :=
  if debug then [Msg.sep, Msg.requestHeader, Msg.requestBody d] else []

/-- The `args.debug` response logging block (`analyze.js` lines 182-191). -/
def debugResponseLog (debug : Bool) (issues : List Issue) : List Msg :=
  if debug then [Msg.sep, Msg.responseHeader, Msg.responseBody issues, Msg.sep] else []

/-- The body of the `try` block (`analyze.js` lines 50-206): each stage
in source order, recording its call, short-circuiting on the first
thrown error, and accumulating the console output. -/
def tryRun (w : World) (args : Args) (apiUrl eth pw : String) :
    List Call × List Msg × Except Err Unit :=
  let path := w.resolvePath args.file
  let c1 := [Call.readFile path]
  match w.readFile path with
  | .error e => (c1, [], .error e)
  | .ok solidityCode =>
  let c2 := c1 ++ [Call.getSolidityVersion solidityCode]
  match w.getSolidityVersion solidityCode with
  | .error e => (c2, [], .error e)
  | .ok version =>
  let c3 := c2 ++ [Call.loadSolcVersion (w.releases version)]
  match w.loadSolcVersion (w.releases version) with
  | .error e => (c3, [], .error e)
  | .ok (solcSnapshot, _fromCache) =>
  let c4 := c3 ++ [Call.resolveAllSources path]
  match w.resolveAllSources path solcSnapshot with
  | .error e => (c4, [], .error e)
  | .ok resolvedSources =>
  let sourceList := resolvedSources.map Prod.fst
  let c5 := c4 ++ [Call.getSolcInput]
  let input := w.getSolcInput resolvedSources
  let c6 := c5 ++ [Call.getCompiledContracts path args.contractTarget]
  match w.getCompiledContracts input solcSnapshot path args.contractTarget with
  | .error e => (c6, [], .error e)
  | .ok compiledData =>
  let c7 := c6 ++ [Call.initClient apiUrl eth pw]
  let mxClient := w.initClient apiUrl eth pw
  let c8 := c7 ++ [Call.authenticate mxClient]
  match w.authenticate mxClient with
  | .error e => (c8, [], .error e)
  | .ok () =>
  let c9 := c8 ++ [Call.getRequestData]
  let data := w.getRequestData compiledData sourceList path args.mode
  let l1 := debugRequestLog args.debug data
  let c10 := c9 ++ [Call.submitData data]
  match w.submitDataForAnalysis mxClient data with
  | .error e => (c10, l1, .error e)
  | .ok uuid =>
  let initialDelay := pollDelay args.mode
  let timeout := pollTimeout args.mode
  let c11 := c10 ++ [Call.awaitAnalysisFinish mxClient uuid initialDelay timeout]
  match w.awaitAnalysisFinish mxClient uuid initialDelay timeout with
  | .error e => (c11, l1, .error e)
  | .ok () =>
  let c12 := c11 ++ [Call.getReport mxClient uuid]
  match w.getReport mxClient uuid with
  | .error e => (c12, l1, .error e)
  | .ok issues =>
  let data2 := { data with sources := input.sources,
                           functionHashes := compiledData.functionHashes }
  let l2 := l1 ++ debugResponseLog args.debug issues
  let c13 := c12 ++ [Call.formatIssues]
  let uniqueIssues := w.formatIssues data2 issues
  if uniqueIssues.isEmpty then
    (c13, l2 ++ [Msg.noIssues args.file compiledData.contractName], .ok ())
  else
    let formatter := w.getFormatter args.format
    let c14 := c13 ++ [Call.getFormatter args.format, Call.runFormatter]
    (c14, l2 ++ [Msg.output (formatter uniqueIssues)], .ok ())

/-- The whole controller (`analyze.js` lines 13-216): mode validation,
format validation, trial-credential substitution, the `try` block, and
the `catch` handler that prints the error and exits with status 1. -/
def analyze (w : World) (env : Env) (args : Args) : RunResult :=
  if args.mode ∈ modes then
    if args.format ∈ formats then
      match tryRun w args env.apiUrl (credEth env) (credPw env) with
      | (cs, ls, .ok ()) => ⟨cs, ls, .completed⟩
      | (cs, ls, .error e) => ⟨cs, ls ++ [Msg.error e], .exited 1⟩
    else ⟨[], [Msg.invalidFormat], .exited (-1)⟩
  else ⟨[], [Msg.invalidMode], .exited (-1)⟩

/-- The abstract pipeline stage an external call belongs to. -/
inductive Stage where
  | readFile | detect | loadSolc | resolve | solcInput | compile
  | initClient | authenticate | requestData | submit | poll | retrieve
  | reduce | selectFormatter | render
  deriving DecidableEq, Repr

/-- The stage of each recorded call. -/
def stageOf : Call → Stage
  | .readFile _ => .readFile
  | .getSolidityVersion _ => .detect
  | .loadSolcVersion _ => .loadSolc
  | .resolveAllSources _ => .resolve
  | .getSolcInput => .solcInput
  | .getCompiledContracts _ _ => .compile
  | .initClient _ _ _ => .initClient
  | .authenticate _ => .authenticate
  | .getRequestData => .requestData
  | .submitData _ => .submit
  | .awaitAnalysisFinish _ _ _ _ => .poll
  | .getReport _ _ => .retrieve
  | .formatIssues => .reduce
  | .getFormatter _ => .selectFormatter
  | .runFormatter => .render

/-- The full stage order of a maximal run. -/
def pipelineFull : List Stage :=
  [.readFile, .detect, .loadSolc, .resolve, .solcInput, .compile,
   .initClient, .authenticate, .requestData, .submit, .poll, .retrieve,
   .reduce, .selectFormatter, .render]

/-- Complete case analysis of one `tryRun` result: one disjunct per
short-circuit point of the pipeline, each recording the oracle equations
that select it and the exact calls, log and outcome produced. -/
def TryRunCases (w : World) (args : Args) (a e p : String) :
    List Call × List Msg × Except Err Unit → Prop := fun r =>
  let path := w.resolvePath args.file
  let mx := w.initClient a e p
  (∃ er, w.readFile path = .error er ∧
    r = ([Call.readFile path], [], .error er)) ∨
  (∃ code er, w.readFile path = .ok code ∧
    w.getSolidityVersion code = .error er ∧
    r = ([Call.readFile path, Call.getSolidityVersion code], [], .error er)) ∨
  (∃ code ver er, w.readFile path = .ok code ∧
    w.getSolidityVersion code = .ok ver ∧
    w.loadSolcVersion (w.releases ver) = .error er ∧
    r = ([Call.readFile path, Call.getSolidityVersion code,
      Call.loadSolcVersion (w.releases ver)], [], .error er)) ∨
  (∃ code ver snap fc er, w.readFile path = .ok code ∧
    w.getSolidityVersion code = .ok ver ∧
    w.loadSolcVersion (w.releases ver) = .ok (snap, fc) ∧
    w.resolveAllSources path snap = .error er ∧
    r = ([Call.readFile path, Call.getSolidityVersion code,
      Call.loadSolcVersion (w.releases ver), Call.resolveAllSources path],
      [], .error er)) ∨
  (∃ code ver snap fc srcs er, w.readFile path = .ok code ∧
    w.getSolidityVersion code = .ok ver ∧
    w.loadSolcVersion (w.releases ver) = .ok (snap, fc) ∧
    w.resolveAllSources path snap = .ok srcs ∧
    w.getCompiledContracts (w.getSolcInput srcs) snap path args.contractTarget = .error er ∧
    r = ([Call.readFile path, Call.getSolidityVersion code,
      Call.loadSolcVersion (w.releases ver), Call.resolveAllSources path,
      Call.getSolcInput, Call.getCompiledContracts path args.contractTarget],
      [], .error er)) ∨
  (∃ code ver snap fc srcs cd er, w.readFile path = .ok code ∧
    w.getSolidityVersion code = .ok ver ∧
    w.loadSolcVersion (w.releases ver) = .ok (snap, fc) ∧
    w.resolveAllSources path snap = .ok srcs ∧
    w.getCompiledContracts (w.getSolcInput srcs) snap path args.contractTarget = .ok cd ∧
    w.authenticate mx = .error er ∧
    r = ([Call.readFile path, Call.getSolidityVersion code,
      Call.loadSolcVersion (w.releases ver), Call.resolveAllSources path,
      Call.getSolcInput, Call.getCompiledContracts path args.contractTarget,
      Call.initClient a e p, Call.authenticate mx], [], .error er)) ∨
  (∃ code ver snap fc srcs cd data er, w.readFile path = .ok code ∧
    w.getSolidityVersion code = .ok ver ∧
    w.loadSolcVersion (w.releases ver) = .ok (snap, fc) ∧
    w.resolveAllSources path snap = .ok srcs ∧
    w.getCompiledContracts (w.getSolcInput srcs) snap path args.contractTarget = .ok cd ∧
    w.authenticate mx = .ok () ∧
    data = w.getRequestData cd (srcs.map Prod.fst) path args.mode ∧
    w.submitDataForAnalysis mx data = .error er ∧
    r = ([Call.readFile path, Call.getSolidityVersion code,
      Call.loadSolcVersion (w.releases ver), Call.resolveAllSources path,
      Call.getSolcInput, Call.getCompiledContracts path args.contractTarget,
      Call.initClient a e p, Call.authenticate mx, Call.getRequestData,
      Call.submitData data],
      debugRequestLog args.debug data, .error er)) ∨
  (∃ code ver snap fc srcs cd data uuid er, w.readFile path = .ok code ∧
    w.getSolidityVersion code = .ok ver ∧
    w.loadSolcVersion (w.releases ver) = .ok (snap, fc) ∧
    w.resolveAllSources path snap = .ok srcs ∧
    w.getCompiledContracts (w.getSolcInput srcs) snap path args.contractTarget = .ok cd ∧
    w.authenticate mx = .ok () ∧
    data = w.getRequestData cd (srcs.map Prod.fst) path args.mode ∧
    w.submitDataForAnalysis mx data = .ok uuid ∧
    w.awaitAnalysisFinish mx uuid (pollDelay args.mode) (pollTimeout args.mode) = .error er ∧
    r = ([Call.readFile path, Call.getSolidityVersion code,
      Call.loadSolcVersion (w.releases ver), Call.resolveAllSources path,
      Call.getSolcInput, Call.getCompiledContracts path args.contractTarget,
      Call.initClient a e p, Call.authenticate mx, Call.getRequestData,
      Call.submitData data,
      Call.awaitAnalysisFinish mx uuid (pollDelay args.mode) (pollTimeout args.mode)],
      debugRequestLog args.debug data, .error er)) ∨
  (∃ code ver snap fc srcs cd data uuid er, w.readFile path = .ok code ∧
    w.getSolidityVersion code = .ok ver ∧
    w.loadSolcVersion (w.releases ver) = .ok (snap, fc) ∧
    w.resolveAllSources path snap = .ok srcs ∧
    w.getCompiledContracts (w.getSolcInput srcs) snap path args.contractTarget = .ok cd ∧
    w.authenticate mx = .ok () ∧
    data = w.getRequestData cd (srcs.map Prod.fst) path args.mode ∧
    w.submitDataForAnalysis mx data = .ok uuid ∧
    w.awaitAnalysisFinish mx uuid (pollDelay args.mode) (pollTimeout args.mode) = .ok () ∧
    w.getReport mx uuid = .error er ∧
    r = ([Call.readFile path, Call.getSolidityVersion code,
      Call.loadSolcVersion (w.releases ver), Call.resolveAllSources path,
      Call.getSolcInput, Call.getCompiledContracts path args.contractTarget,
      Call.initClient a e p, Call.authenticate mx, Call.getRequestData,
      Call.submitData data,
      Call.awaitAnalysisFinish mx uuid (pollDelay args.mode) (pollTimeout args.mode),
      Call.getReport mx uuid],
      debugRequestLog args.debug data, .error er)) ∨
  (∃ code ver snap fc srcs cd data uuid issues, w.readFile path = .ok code ∧
    w.getSolidityVersion code = .ok ver ∧
    w.loadSolcVersion (w.releases ver) = .ok (snap, fc) ∧
    w.resolveAllSources path snap = .ok srcs ∧
    w.getCompiledContracts (w.getSolcInput srcs) snap path args.contractTarget = .ok cd ∧
    w.authenticate mx = .ok () ∧
    data = w.getRequestData cd (srcs.map Prod.fst) path args.mode ∧
    w.submitDataForAnalysis mx data = .ok uuid ∧
    w.awaitAnalysisFinish mx uuid (pollDelay args.mode) (pollTimeout args.mode) = .ok () ∧
    w.getReport mx uuid = .ok issues ∧
    (w.formatIssues ⟨data.payload, (w.getSolcInput srcs).sources, cd.functionHashes⟩
      issues).isEmpty = true ∧
    r = ([Call.readFile path, Call.getSolidityVersion code,
      Call.loadSolcVersion (w.releases ver), Call.resolveAllSources path,
      Call.getSolcInput, Call.getCompiledContracts path args.contractTarget,
      Call.initClient a e p, Call.authenticate mx, Call.getRequestData,
      Call.submitData data,
      Call.awaitAnalysisFinish mx uuid (pollDelay args.mode) (pollTimeout args.mode),
      Call.getReport mx uuid, Call.formatIssues],
      debugRequestLog args.debug data ++ debugResponseLog args.debug issues ++
        [Msg.noIssues args.file cd.contractName], .ok ())) ∨
  (∃ code ver snap fc srcs cd data uuid issues, w.readFile path = .ok code ∧
    w.getSolidityVersion code = .ok ver ∧
    w.loadSolcVersion (w.releases ver) = .ok (snap, fc) ∧
    w.resolveAllSources path snap = .ok srcs ∧
    w.getCompiledContracts (w.getSolcInput srcs) snap path args.contractTarget = .ok cd ∧
    w.authenticate mx = .ok () ∧
    data = w.getRequestData cd (srcs.map Prod.fst) path args.mode ∧
    w.submitDataForAnalysis mx data = .ok uuid ∧
    w.awaitAnalysisFinish mx uuid (pollDelay args.mode) (pollTimeout args.mode) = .ok () ∧
    w.getReport mx uuid = .ok issues ∧
    (w.formatIssues ⟨data.payload, (w.getSolcInput srcs).sources, cd.functionHashes⟩
      issues).isEmpty = false ∧
    r = ([Call.readFile path, Call.getSolidityVersion code,
      Call.loadSolcVersion (w.releases ver), Call.resolveAllSources path,
      Call.getSolcInput, Call.getCompiledContracts path args.contractTarget,
      Call.initClient a e p, Call.authenticate mx, Call.getRequestData,
      Call.submitData data,
      Call.awaitAnalysisFinish mx uuid (pollDelay args.mode) (pollTimeout args.mode),
      Call.getReport mx uuid, Call.formatIssues,
      Call.getFormatter args.format, Call.runFormatter],
      debugRequestLog args.debug data ++ debugResponseLog args.debug issues ++
        [Msg.output (w.getFormatter args.format
          (w.formatIssues ⟨data.payload, (w.getSolcInput srcs).sources, cd.functionHashes⟩
            issues))], .ok ()))

/-- Outcome shapes of the whole controller: rejected mode, rejected
format, a stage failure (error printed, exit status 1), or a completed
run. -/
def AnalyzeCases (w : World) (env : Env) (args : Args) : Prop :=
  analyze w env args = ⟨[], [Msg.invalidMode], .exited (-1)⟩ ∨
  analyze w env args = ⟨[], [Msg.invalidFormat], .exited (-1)⟩ ∨
  (∃ cs ls er, TryRunCases w args env.apiUrl (credEth env) (credPw env) (cs, ls, .error er) ∧
    analyze w env args = ⟨cs, ls ++ [Msg.error er], .exited 1⟩) ∨
  (∃ cs ls, TryRunCases w args env.apiUrl (credEth env) (credPw env) (cs, ls, .ok ()) ∧
    analyze w env args = ⟨cs, ls, .completed⟩)

/-- A concrete oracle world in which every stage succeeds and the
service reports two findings; used to witness the theorems on concrete
runs. -/
def wOK : World where
  resolvePath s := "/abs/" ++ s
  readFile _ := .ok "pragma solidity 0.5.0;"
  getSolidityVersion _ := .ok "0.5.0"
  releases v := "v" ++ v
  loadSolcVersion _ := .ok ("solc5", true)
  resolveAllSources p _ := .ok [(p, "body")]
  getSolcInput srcs := ⟨srcs, "settings"⟩
  getCompiledContracts _ _ _ _ := .ok ⟨"MyContract", [("f()", "ab")], "bytecode"⟩
  initClient a e p := a ++ "|" ++ e ++ "|" ++ p
  authenticate _ := .ok ()
  getRequestData _ _ _ mode := ⟨"payload:" ++ mode, [], []⟩
  submitDataForAnalysis _ _ := .ok "uuid-1"
  awaitAnalysisFinish _ _ _ _ := .ok ()
  getReport _ _ := .ok ["issue1", "issue2"]
  formatIssues _ issues := issues
  getFormatter fmt issues := fmt ++ ":" ++ String.intercalate "," issues

/-- `wOK` with an unparsable version constraint: `getSolidityVersion`
throws. -/
def wVerFail : World :=
  { wOK with getSolidityVersion := fun _ => .error "MalformedVersionConstraint" }

/-- `wOK` with a poll loop that rejects (e.g. a quick-mode job pending
past the timeout). -/
def wPollFail : World :=
  { wOK with awaitAnalysisFinish := fun _ _ _ _ => .error "timeout" }

/-- The client handle `wOK.initClient` produces for the trial
credentials. -/
def mxOK : String :=
  "https://api|0x0000000000000000000000000000000000000000|trial"

/-- Quick-mode arguments with the text format. -/
def argsQ : Args := ⟨"quick", "text", false, "c.sol", none⟩

/-- Full-mode arguments with the json format. -/
def argsFull : Args := ⟨"full", "json", false, "c.sol", none⟩

/-- Arguments with an unknown output format. -/
def argsBadFmt : Args := ⟨"quick", "xml", false, "c.sol", none⟩

/-- Arguments with an unknown analysis mode. -/
def argsBadMode : Args := ⟨"standard", "text", false, "c.sol", none⟩

/-- An environment with no credentials set. -/
def envT : Env := ⟨none, none, "https://api"⟩

/-- The deduplicated finding list of a successful run
(`analyze.js` lines 176-193): `report.formatIssues` applied to the
request data whose `sources` and `functionHashes` fields were
overwritten from the compiler input and the compiled contract. -/
def reducedFindings (w : World) (args : Args) (srcs : List (String × String))
    (cd : CompiledData) (issues : List Issue) : List Issue :=
  w.formatIssues
    ⟨(w.getRequestData cd (srcs.map Prod.fst) (w.resolvePath args.file) args.mode).payload,
      (w.getSolcInput srcs).sources, cd.functionHashes⟩ issues

/-- Every `tryRun` result falls into one of the `TryRunCases`
disjuncts. -/
theorem tryRun_cases (w : World) (args : Args) (a e p : String) :
    TryRunCases w args a e p (tryRun w args a e p) := by
  unfold tryRun
  cases hr : w.readFile (w.resolvePath args.file) with
  | error e => exact Or.inl ⟨e, hr, by simp [hr]⟩
  | ok solidityCode =>
  simp only [hr]
  cases hv : w.getSolidityVersion solidityCode with
  | error e => exact Or.inr (Or.inl ⟨solidityCode, e, hr, hv, by simp [hv]⟩)
  | ok version =>
  simp only [hv]
  cases hl : w.loadSolcVersion (w.releases version) with
  | error e => exact Or.inr (Or.inr (Or.inl ⟨solidityCode, version, e, hr, hv, hl, by simp [hl]⟩))
  | ok snap =>
  obtain ⟨solcSnapshot, fromCache⟩ := snap
  simp only [hl]
  cases hres : w.resolveAllSources (w.resolvePath args.file) solcSnapshot with
  | error e => exact Or.inr (Or.inr (Or.inr (Or.inl
      ⟨solidityCode, version, solcSnapshot, fromCache, e, hr, hv, hl, hres, by simp [hres]⟩)))
  | ok resolvedSources =>
  simp only [hres]
  cases hc : w.getCompiledContracts (w.getSolcInput resolvedSources) solcSnapshot
      (w.resolvePath args.file) args.contractTarget with
  | error e => exact Or.inr (Or.inr (Or.inr (Or.inr (Or.inl
      ⟨solidityCode, version, solcSnapshot, fromCache, resolvedSources, e,
        hr, hv, hl, hres, hc, by simp [hc]⟩))))
  | ok compiledData =>
  simp only [hc]
  cases hau : w.authenticate (w.initClient a e p) with
  | error e => exact Or.inr (Or.inr (Or.inr (Or.inr (Or.inr (Or.inl
      ⟨solidityCode, version, solcSnapshot, fromCache, resolvedSources, compiledData, e,
        hr, hv, hl, hres, hc, hau, by simp [hau]⟩)))))
  | ok u =>
  obtain ⟨⟩ := u
  simp only [hau]
  cases hs : w.submitDataForAnalysis (w.initClient a e p)
      (w.getRequestData compiledData (List.map Prod.fst resolvedSources)
        (w.resolvePath args.file) args.mode) with
  | error e => exact Or.inr (Or.inr (Or.inr (Or.inr (Or.inr (Or.inr (Or.inl
      ⟨solidityCode, version, solcSnapshot, fromCache, resolvedSources, compiledData,
        _, e, hr, hv, hl, hres, hc, hau, rfl, hs, by simp [hs]⟩))))))
  | ok uuid =>
  simp only [hs]
  cases ha : w.awaitAnalysisFinish (w.initClient a e p) uuid
      (pollDelay args.mode) (pollTimeout args.mode) with
  | error e => exact Or.inr (Or.inr (Or.inr (Or.inr (Or.inr (Or.inr (Or.inr (Or.inl
      ⟨solidityCode, version, solcSnapshot, fromCache, resolvedSources, compiledData,
        _, uuid, e, hr, hv, hl, hres, hc, hau, rfl, hs, ha, by simp [ha]⟩)))))))
  | ok u =>
  obtain ⟨⟩ := u
  simp only [ha]
  cases hrep : w.getReport (w.initClient a e p) uuid with
  | error e => exact Or.inr (Or.inr (Or.inr (Or.inr (Or.inr (Or.inr (Or.inr (Or.inr (Or.inl
      ⟨solidityCode, version, solcSnapshot, fromCache, resolvedSources, compiledData,
        _, uuid, e, hr, hv, hl, hres, hc, hau, rfl, hs, ha, hrep, by simp [hrep]⟩))))))))
  | ok issues =>
  simp only [hrep]
  cases hU : (w.formatIssues
      ⟨(w.getRequestData compiledData (List.map Prod.fst resolvedSources)
          (w.resolvePath args.file) args.mode).payload,
        (w.getSolcInput resolvedSources).sources, compiledData.functionHashes⟩
      issues).isEmpty with
  | true => exact Or.inr (Or.inr (Or.inr (Or.inr (Or.inr (Or.inr (Or.inr (Or.inr (Or.inr (Or.inl
      ⟨solidityCode, version, solcSnapshot, fromCache, resolvedSources, compiledData,
        _, uuid, issues, hr, hv, hl, hres, hc, hau, rfl, hs, ha, hrep, hU, by simp [hU]⟩)))))))))
  | false => exact Or.inr (Or.inr (Or.inr (Or.inr (Or.inr (Or.inr (Or.inr (Or.inr (Or.inr (Or.inr
      ⟨solidityCode, version, solcSnapshot, fromCache, resolvedSources, compiledData,
        _, uuid, issues, hr, hv, hl, hres, hc, hau, rfl, hs, ha, hrep, hU, by simp [hU]⟩)))))))))

/-- An invalid mode short-circuits the whole controller
(`analyze.js` lines 16-22). -/
theorem analyze_invalid_mode (w : World) (env : Env) (args : Args)
    (hm : args.mode ∉ modes) :
    analyze w env args = ⟨[], [Msg.invalidMode], .exited (-1)⟩ := by
  unfold analyze
  rw [if_neg hm]

/-- A valid mode but invalid format short-circuits the controller
(`analyze.js` lines 24-30). -/
theorem analyze_invalid_format (w : World) (env : Env) (args : Args)
    (hm : args.mode ∈ modes) (hf : args.format ∉ formats) :
    analyze w env args = ⟨[], [Msg.invalidFormat], .exited (-1)⟩ := by
  unfold analyze
  rw [if_pos hm, if_neg hf]

/-- With a valid mode and format the controller is the `try` block plus
the `catch` handler. -/
theorem analyze_valid (w : World) (env : Env) (args : Args)
    (hm : args.mode ∈ modes) (hf : args.format ∈ formats) :
    analyze w env args =
      match tryRun w args env.apiUrl (credEth env) (credPw env) with
      | (cs, ls, .ok ()) => ⟨cs, ls, .completed⟩
      | (cs, ls, .error e) => ⟨cs, ls ++ [Msg.error e], .exited 1⟩ := by
  unfold analyze
  rw [if_pos hm, if_pos hf]

/-- Every run falls into one of the `AnalyzeCases` shapes. -/
theorem analyze_cases (w : World) (env : Env) (args : Args) : AnalyzeCases w env args := by
  unfold AnalyzeCases
  by_cases hm : args.mode ∈ modes
  · by_cases hf : args.format ∈ formats
    · have htc := tryRun_cases w args env.apiUrl (credEth env) (credPw env)
      have hv := analyze_valid w env args hm hf
      rcases ht : tryRun w args env.apiUrl (credEth env) (credPw env) with ⟨cs, ls, res⟩
      rw [ht] at htc hv
      cases res with
      | error er =>
        refine Or.inr (Or.inr (Or.inl ⟨cs, ls, er, htc, ?_⟩))
        rw [hv]
      | ok u =>
        obtain ⟨⟩ := u
        refine Or.inr (Or.inr (Or.inr ⟨cs, ls, htc, ?_⟩))
        rw [hv]
    · exact Or.inr (Or.inl (analyze_invalid_format w env args hm hf))
  · exact Or.inl (analyze_invalid_mode w env args hm)

/-- The stages of the calls a `tryRun` makes always form a prefix of
the full pipeline order. -/
theorem tryRun_stages (w : World) (args : Args) (a e p : String) :
    ∃ k, ((tryRun w args a e p).1).map stageOf = pipelineFull.take k := by
  unfold tryRun
  cases hr : w.readFile (w.resolvePath args.file) with
  | error e => exact ⟨1, by simp [hr, stageOf, pipelineFull]⟩
  | ok solidityCode =>
  simp only [hr]
  cases hv : w.getSolidityVersion solidityCode with
  | error e => exact ⟨2, by simp [hv, stageOf, pipelineFull]⟩
  | ok version =>
  simp only [hv]
  cases hl : w.loadSolcVersion (w.releases version) with
  | error e => exact ⟨3, by simp [hl, stageOf, pipelineFull]⟩
  | ok snap =>
  obtain ⟨solcSnapshot, fromCache⟩ := snap
  simp only [hl]
  cases hres : w.resolveAllSources (w.resolvePath args.file) solcSnapshot with
  | error e => exact ⟨4, by simp [hres, stageOf, pipelineFull]⟩
  | ok resolvedSources =>
  simp only [hres]
  cases hc : w.getCompiledContracts (w.getSolcInput resolvedSources) solcSnapshot
      (w.resolvePath args.file) args.contractTarget with
  | error e => exact ⟨6, by simp [hc, stageOf, pipelineFull]⟩
  | ok compiledData =>
  simp only [hc]
  cases hau : w.authenticate (w.initClient a e p) with
  | error e => exact ⟨8, by simp [hau, stageOf, pipelineFull]⟩
  | ok u =>
  obtain ⟨⟩ := u
  simp only [hau]
  cases hs : w.submitDataForAnalysis (w.initClient a e p)
      (w.getRequestData compiledData (List.map Prod.fst resolvedSources)
        (w.resolvePath args.file) args.mode) with
  | error e => exact ⟨10, by simp [hs, stageOf, pipelineFull]⟩
  | ok uuid =>
  simp only [hs]
  cases ha : w.awaitAnalysisFinish (w.initClient a e p) uuid
      (pollDelay args.mode) (pollTimeout args.mode) with
  | error e => exact ⟨11, by simp [ha, stageOf, pipelineFull]⟩
  | ok u =>
  obtain ⟨⟩ := u
  simp only [ha]
  cases hrep : w.getReport (w.initClient a e p) uuid with
  | error e => exact ⟨12, by simp [hrep, stageOf, pipelineFull]⟩
  | ok issues =>
  simp only [hrep]
  repeat' split
  all_goals first
    | (refine ⟨13, ?_⟩; simp [stageOf, pipelineFull]; done)
    | (refine ⟨15, ?_⟩; simp [stageOf, pipelineFull])

/-- On a valid mode and format, the controller's recorded calls are
exactly the `try` block's. -/
theorem analyze_calls_eq (w : World) (env : Env) (args : Args)
    (hm : args.mode ∈ modes) (hf : args.format ∈ formats) :
    (analyze w env args).calls = (tryRun w args env.apiUrl (credEth env) (credPw env)).1 := by
  rw [analyze_valid w env args hm hf]
  rcases ht : tryRun w args env.apiUrl (credEth env) (credPw env) with ⟨cs, ls, res⟩
  cases res with
  | error er => rfl
  | ok u => obtain ⟨⟩ := u; rfl

/-- The empty-findings success message is not a debug message. -/
theorem isDebug_noIssues (f cn : String) : (Msg.noIssues f cn).isDebug = false := rfl

/-- The rendered-output message is not a debug message. -/
theorem isDebug_output (s : String) : (Msg.output s).isDebug = false := rfl

/-- The printed-error message is not a debug message. -/
theorem isDebug_error (e : Err) : (Msg.error e).isDebug = false := rfl

/-- Filtering out debug messages erases the request logging block. -/
theorem filter_debugRequestLog (b : Bool) (d : ReqData) :
    (debugRequestLog b d).filter (fun m => !m.isDebug) = [] := by
  cases b <;> simp [debugRequestLog, Msg.isDebug]

/-- Filtering out debug messages erases the response logging block. -/
theorem filter_debugResponseLog (b : Bool) (issues : List Issue) :
    (debugResponseLog b issues).filter (fun m => !m.isDebug) = [] := by
  cases b <;> simp [debugResponseLog, Msg.isDebug]

/-- Two `try` blocks differing only in the debug flag make the same
calls, end the same way, and print the same non-debug messages. -/
theorem tryRun_debug (w : World) (args : Args) (a e p : String) (d1 d2 : Bool) :
    (tryRun w { args with debug := d1 } a e p).1 =
      (tryRun w { args with debug := d2 } a e p).1 ∧
    (tryRun w { args with debug := d1 } a e p).2.2 =
      (tryRun w { args with debug := d2 } a e p).2.2 ∧
    ((tryRun w { args with debug := d1 } a e p).2.1).filter (fun m => !m.isDebug) =
      ((tryRun w { args with debug := d2 } a e p).2.1).filter (fun m => !m.isDebug) := by
  obtain ⟨mode, fmt, dbg, file, tgt⟩ := args
  unfold tryRun
  dsimp only
  cases hr : w.readFile (w.resolvePath file) with
  | error e => simp [hr]
  | ok solidityCode =>
  simp only [hr]
  cases hv : w.getSolidityVersion solidityCode with
  | error e => simp [hv]
  | ok version =>
  simp only [hv]
  cases hl : w.loadSolcVersion (w.releases version) with
  | error e => simp [hl]
  | ok snap =>
  obtain ⟨solcSnapshot, fromCache⟩ := snap
  simp only [hl]
  cases hres : w.resolveAllSources (w.resolvePath file) solcSnapshot with
  | error e => simp [hres]
  | ok resolvedSources =>
  simp only [hres]
  cases hc : w.getCompiledContracts (w.getSolcInput resolvedSources) solcSnapshot
      (w.resolvePath file) tgt with
  | error e => simp [hc]
  | ok compiledData =>
  simp only [hc]
  cases hau : w.authenticate (w.initClient a e p) with
  | error e => simp [hau]
  | ok u =>
  obtain ⟨⟩ := u
  simp only [hau]
  cases hs : w.submitDataForAnalysis (w.initClient a e p)
      (w.getRequestData compiledData (List.map Prod.fst resolvedSources)
        (w.resolvePath file) mode) with
  | error e => simp [hs, filter_debugRequestLog]
  | ok uuid =>
  simp only [hs]
  cases ha : w.awaitAnalysisFinish (w.initClient a e p) uuid
      (pollDelay mode) (pollTimeout mode) with
  | error e => simp [ha, filter_debugRequestLog]
  | ok u =>
  obtain ⟨⟩ := u
  simp only [ha]
  cases hrep : w.getReport (w.initClient a e p) uuid with
  | error e => simp [hrep, filter_debugRequestLog]
  | ok issues =>
  simp only [hrep]
  cases hU : (w.formatIssues
      ⟨(w.getRequestData compiledData (List.map Prod.fst resolvedSources)
          (w.resolvePath file) mode).payload,
        (w.getSolcInput resolvedSources).sources, compiledData.functionHashes⟩
      issues).isEmpty with
  | true => simp [hU, filter_debugRequestLog, filter_debugResponseLog, isDebug_noIssues]
  | false => simp [hU, filter_debugRequestLog, filter_debugResponseLog, isDebug_output]

/-- Every message in a debug request log block is a debug message. -/
theorem mem_debugRequestLog_isDebug {m : Msg} {b : Bool} {d : ReqData}
    (h : m ∈ debugRequestLog b d) : m.isDebug = true := by
  cases b with
  | false => simp [debugRequestLog] at h
  | true =>
    simp only [debugRequestLog, if_true, List.mem_cons, List.not_mem_nil, or_false] at h
    rcases h with rfl | rfl | rfl <;> rfl

/-- The stages of a whole run's calls always form a prefix of the full
pipeline order. -/
theorem analyze_stages_take (w : World) (env : Env) (args : Args) :
    ∃ k, ((analyze w env args).calls).map stageOf = pipelineFull.take k := by
  by_cases hm : args.mode ∈ modes
  · by_cases hf : args.format ∈ formats
    · obtain ⟨k, hk⟩ := tryRun_stages w args env.apiUrl (credEth env) (credPw env)
      exact ⟨k, by rw [analyze_calls_eq w env args hm hf]; exact hk⟩
    · exact ⟨0, by rw [analyze_invalid_format w env args hm hf]; rfl⟩
  · exact ⟨0, by rw [analyze_invalid_mode w env args hm]; rfl⟩

/-- No run ever invokes the same pipeline stage twice. -/
theorem analyze_stages_nodup (w : World) (env : Env) (args : Args) :
    (((analyze w env args).calls).map stageOf).Nodup := by
  obtain ⟨k, hk⟩ := analyze_stages_take w env args
  rw [hk]
  exact ((by decide : pipelineFull.Nodup)).sublist (List.take_sublist k pipelineFull)

/-- A run that exits with status 1 printed only debug messages followed
by the error. -/
theorem analyze_error_log (w : World) (env : Env) (args : Args)
    (h : (analyze w env args).outcome = .exited 1) :
    ∃ dbg er, (analyze w env args).log = dbg ++ [Msg.error er] ∧
      ∀ m ∈ dbg, m.isDebug = true := by
  rcases analyze_cases w env args with heq | heq | ⟨cs, ls, er, htc, heq⟩ | ⟨cs, ls, htc, heq⟩
  · rw [heq] at h; simp at h
  · rw [heq] at h; simp at h
  · rw [heq]
    simp only [TryRunCases, Prod.mk.injEq] at htc
    rcases htc with ⟨er2, g1, hcs, hls, hee⟩ |
      ⟨code, er2, g1, g2, hcs, hls, hee⟩ |
      ⟨code, ver, er2, g1, g2, g3, hcs, hls, hee⟩ |
      ⟨code, ver, snap, fc, er2, g1, g2, g3, g4, hcs, hls, hee⟩ |
      ⟨code, ver, snap, fc, srcs, er2, g1, g2, g3, g4, g5, hcs, hls, hee⟩ |
      ⟨code, ver, snap, fc, srcs, cd, er2, g1, g2, g3, g4, g5, g6, hcs, hls, hee⟩ |
      ⟨code, ver, snap, fc, srcs, cd, data, er2, g1, g2, g3, g4, g5, g6, g7, g8, hcs, hls, hee⟩ |
      ⟨code, ver, snap, fc, srcs, cd, data, uuid, er2, g1, g2, g3, g4, g5, g6, g7, g8, g9, hcs, hls, hee⟩ |
      ⟨code, ver, snap, fc, srcs, cd, data, uuid, er2, g1, g2, g3, g4, g5, g6, g7, g8, g9, g10, hcs, hls, hee⟩ |
      ⟨code, ver, snap, fc, srcs, cd, data, uuid, issues, g1, g2, g3, g4, g5, g6, g7, g8, g9, g10, g11, hcs, hls, hee⟩ |
      ⟨code, ver, snap, fc, srcs, cd, data, uuid, issues, g1, g2, g3, g4, g5, g6, g7, g8, g9, g10, g11, hcs, hls, hee⟩
    all_goals first
      | exact Except.noConfusion hee
      | (subst hls; exact ⟨[], er, rfl, by simp⟩)
      | (subst hls; exact ⟨debugRequestLog args.debug _, er, rfl,
          fun m hm2 => mem_debugRequestLog_isDebug hm2⟩)
  · rw [heq] at h; simp at h

/-- Claim C1: for every run, whenever the poll loop is invoked, it is
invoked with the mode-dependent constants: initial delay 20000 ms and
timeout 180000 ms in quick mode, otherwise (full mode) initial delay
300000 ms and timeout 2400000 ms. -/
theorem poll_mode_constants (w : World) (env : Env) (args : Args)
    (cl u : String) (d t : Nat)
    (hmem : Call.awaitAnalysisFinish cl u d t ∈ (analyze w env args).calls) :
    (args.mode = "quick" → d = 20000 ∧ t = 180000) ∧
    (args.mode ≠ "quick" → d = 300000 ∧ t = 2400000) := by
  have hdt : d = pollDelay args.mode ∧ t = pollTimeout args.mode := by
    rcases analyze_cases w env args with heq | heq | ⟨cs, ls, er, htc, heq⟩ | ⟨cs, ls, htc, heq⟩
    · rw [heq] at hmem; simp at hmem
    · rw [heq] at hmem; simp at hmem
    · rw [heq] at hmem
      simp only [TryRunCases, Prod.mk.injEq] at htc
      rcases htc with ⟨er2, g1, hcs, hls, hee⟩ |
        ⟨code, er2, g1, g2, hcs, hls, hee⟩ |
        ⟨code, ver, er2, g1, g2, g3, hcs, hls, hee⟩ |
        ⟨code, ver, snap, fc, er2, g1, g2, g3, g4, hcs, hls, hee⟩ |
        ⟨code, ver, snap, fc, srcs, er2, g1, g2, g3, g4, g5, hcs, hls, hee⟩ |
        ⟨code, ver, snap, fc, srcs, cd, er2, g1, g2, g3, g4, g5, g6, hcs, hls, hee⟩ |
        ⟨code, ver, snap, fc, srcs, cd, data, er2, g1, g2, g3, g4, g5, g6, g7, g8, hcs, hls, hee⟩ |
        ⟨code, ver, snap, fc, srcs, cd, data, uuid, er2, g1, g2, g3, g4, g5, g6, g7, g8, g9, hcs, hls, hee⟩ |
        ⟨code, ver, snap, fc, srcs, cd, data, uuid, er2, g1, g2, g3, g4, g5, g6, g7, g8, g9, g10, hcs, hls, hee⟩ |
        ⟨code, ver, snap, fc, srcs, cd, data, uuid, issues, g1, g2, g3, g4, g5, g6, g7, g8, g9, g10, g11, hcs, hls, hee⟩ |
        ⟨code, ver, snap, fc, srcs, cd, data, uuid, issues, g1, g2, g3, g4, g5, g6, g7, g8, g9, g10, g11, hcs, hls, hee⟩ <;>
        subst hcs <;> simp at hmem
      all_goals first
        | exact hee.elim
        | exact ⟨hmem.2.2.1, hmem.2.2.2⟩
    · rw [heq] at hmem
      simp only [TryRunCases, Prod.mk.injEq] at htc
      rcases htc with ⟨er2, g1, hcs, hls, hee⟩ |
        ⟨code, er2, g1, g2, hcs, hls, hee⟩ |
        ⟨code, ver, er2, g1, g2, g3, hcs, hls, hee⟩ |
        ⟨code, ver, snap, fc, er2, g1, g2, g3, g4, hcs, hls, hee⟩ |
        ⟨code, ver, snap, fc, srcs, er2, g1, g2, g3, g4, g5, hcs, hls, hee⟩ |
        ⟨code, ver, snap, fc, srcs, cd, er2, g1, g2, g3, g4, g5, g6, hcs, hls, hee⟩ |
        ⟨code, ver, snap, fc, srcs, cd, data, er2, g1, g2, g3, g4, g5, g6, g7, g8, hcs, hls, hee⟩ |
        ⟨code, ver, snap, fc, srcs, cd, data, uuid, er2, g1, g2, g3, g4, g5, g6, g7, g8, g9, hcs, hls, hee⟩ |
        ⟨code, ver, snap, fc, srcs, cd, data, uuid, er2, g1, g2, g3, g4, g5, g6, g7, g8, g9, g10, hcs, hls, hee⟩ |
        ⟨code, ver, snap, fc, srcs, cd, data, uuid, issues, g1, g2, g3, g4, g5, g6, g7, g8, g9, g10, g11, hcs, hls, hee⟩ |
        ⟨code, ver, snap, fc, srcs, cd, data, uuid, issues, g1, g2, g3, g4, g5, g6, g7, g8, g9, g10, g11, hcs, hls, hee⟩ <;>
        subst hcs <;> simp at hmem
      all_goals first
        | exact hee.elim
        | exact ⟨hmem.2.2.1, hmem.2.2.2⟩
  obtain ⟨rfl, rfl⟩ := hdt
  constructor
  · intro hq
    rw [hq]
    constructor <;> decide
  · intro hq
    unfold pollDelay pollTimeout
    rw [if_neg (by simpa using hq), if_neg (by simpa using hq)]
    constructor <;> decide

/-- Witness for C1: the successful quick-mode run polls with
20000/180000. -/
theorem poll_mode_constants_witness :
    Call.awaitAnalysisFinish mxOK "uuid-1" 20000 180000 ∈ (analyze wOK envT argsQ).calls ∧
    (20000 = 20000 ∧ 180000 = 180000) :=
  ⟨by decide,
    (poll_mode_constants wOK envT argsQ mxOK "uuid-1" 20000 180000 (by decide)).1 rfl⟩

/-- Claim C2: a run whose requested output format is unknown records no
external call at all (no file read, no toolchain, no network, no
compile) and terminates with exit status -1. -/
theorem invalid_format_fail_fast (w : World) (env : Env) (args : Args)
    (hf : args.format ∉ formats) :
    (analyze w env args).calls = [] ∧ (analyze w env args).outcome = .exited (-1) := by
  by_cases hm : args.mode ∈ modes
  · rw [analyze_invalid_format w env args hm hf]; exact ⟨rfl, rfl⟩
  · rw [analyze_invalid_mode w env args hm]; exact ⟨rfl, rfl⟩

/-- Witness for C2: the xml format is rejected before any work. -/
theorem invalid_format_fail_fast_witness :
    "xml" ∉ formats ∧
    (analyze wOK envT argsBadFmt).calls = [] ∧
    (analyze wOK envT argsBadFmt).outcome = .exited (-1) :=
  ⟨by decide, invalid_format_fail_fast wOK envT argsBadFmt (by decide)⟩

/-- Claim C5: every run's external calls follow the fixed pipeline
order (read, detect, load, resolve, solc input, compile, client init,
authenticate, request data, submit, poll, retrieve, reduce, select
formatter, render) and form a contiguous prefix of it: no later stage
begins unless every earlier one completed. -/
theorem pipeline_sequential (w : World) (env : Env) (args : Args) :
    ∃ k, ((analyze w env args).calls).map stageOf = pipelineFull.take k :=
  analyze_stages_take w env args

/-- Claim C9: a run whose analysis mode is unknown prints the list of
available modes, records no external call, and exits with code -1 —
the same fail-fast treatment unknown formats receive. -/
theorem invalid_mode_fail_fast (w : World) (env : Env) (args : Args)
    (hm : args.mode ∉ modes) :
    (analyze w env args).calls = [] ∧
    (analyze w env args).log = [Msg.invalidMode] ∧
    msgText Msg.invalidMode = "Invalid analysis mode. Available modes: quick, full." ∧
    (analyze w env args).outcome = .exited (-1) := by
  rw [analyze_invalid_mode w env args hm]
  exact ⟨rfl, rfl, by decide, rfl⟩

/-- Witness for C9: the standard mode is rejected before any work. -/
theorem invalid_mode_fail_fast_witness :
    "standard" ∉ modes ∧
    (analyze wOK envT argsBadMode).calls = [] ∧
    (analyze wOK envT argsBadMode).outcome = .exited (-1) :=
  ⟨by decide, (invalid_mode_fail_fast wOK envT argsBadMode (by decide)).1,
    (invalid_mode_fail_fast wOK envT argsBadMode (by decide)).2.2.2⟩

/-- Claim C3: if version detection throws, the run aborts with that
error having made exactly the file read and the version detection call:
the toolchain load and every remote-service call (authenticate, submit)
never happen. -/
theorem version_detect_error_aborts (w : World) (env : Env) (args : Args)
    (code er : String)
    (hm : args.mode ∈ modes) (hf : args.format ∈ formats)
    (hread : w.readFile (w.resolvePath args.file) = .ok code)
    (hver : w.getSolidityVersion code = .error er) :
    analyze w env args =
      ⟨[Call.readFile (w.resolvePath args.file), Call.getSolidityVersion code],
        [Msg.error er], .exited 1⟩ ∧
    (∀ r, Call.loadSolcVersion r ∉ (analyze w env args).calls) ∧
    (∀ cl, Call.authenticate cl ∉ (analyze w env args).calls) ∧
    (∀ d, Call.submitData d ∉ (analyze w env args).calls) := by
  have ht : tryRun w args env.apiUrl (credEth env) (credPw env) =
      ([Call.readFile (w.resolvePath args.file), Call.getSolidityVersion code],
        [], .error er) := by
    unfold tryRun
    simp [hread, hver]
  have heq : analyze w env args =
      ⟨[Call.readFile (w.resolvePath args.file), Call.getSolidityVersion code],
        [Msg.error er], .exited 1⟩ := by
    rw [analyze_valid w env args hm hf, ht]
    rfl
  refine ⟨heq, ?_, ?_, ?_⟩ <;> intro x <;> rw [heq] <;> simp

/-- Witness for C3: a malformed version constraint aborts the concrete
run right after detection. -/
theorem version_detect_error_aborts_witness :
    ("quick" ∈ modes ∧ "text" ∈ formats ∧
      wVerFail.readFile (wVerFail.resolvePath argsQ.file) = .ok "pragma solidity 0.5.0;" ∧
      wVerFail.getSolidityVersion "pragma solidity 0.5.0;" = .error "MalformedVersionConstraint") ∧
    analyze wVerFail envT argsQ =
      ⟨[Call.readFile "/abs/c.sol", Call.getSolidityVersion "pragma solidity 0.5.0;"],
        [Msg.error "MalformedVersionConstraint"], .exited 1⟩ :=
  ⟨⟨by decide, by decide, rfl, rfl⟩,
    by exact (version_detect_error_aborts wVerFail envT argsQ "pragma solidity 0.5.0;"
      "MalformedVersionConstraint" (by decide) (by decide) rfl rfl).1⟩

/-- Claim C4: whenever results retrieval (`client.getReport`) is called,
the poll loop was called on the same client and job and resolved
successfully; hence if the poll loop rejects (e.g. a quick-mode timeout)
`getReport` is never called. -/
theorem retrieval_only_after_poll_ok (w : World) (env : Env) (args : Args)
    (cl u : String)
    (hmem : Call.getReport cl u ∈ (analyze w env args).calls) :
    Call.awaitAnalysisFinish cl u (pollDelay args.mode) (pollTimeout args.mode) ∈
      (analyze w env args).calls ∧
    w.awaitAnalysisFinish cl u (pollDelay args.mode) (pollTimeout args.mode) = .ok () := by
  rcases analyze_cases w env args with heq | heq | ⟨cs, ls, er, htc, heq⟩ | ⟨cs, ls, htc, heq⟩
  · rw [heq] at hmem; simp at hmem
  · rw [heq] at hmem; simp at hmem
  · rw [heq] at hmem ⊢
    simp only [TryRunCases, Prod.mk.injEq] at htc
    rcases htc with ⟨er2, g1, hcs, hls, hee⟩ |
        ⟨code, er2, g1, g2, hcs, hls, hee⟩ |
        ⟨code, ver, er2, g1, g2, g3, hcs, hls, hee⟩ |
        ⟨code, ver, snap, fc, er2, g1, g2, g3, g4, hcs, hls, hee⟩ |
        ⟨code, ver, snap, fc, srcs, er2, g1, g2, g3, g4, g5, hcs, hls, hee⟩ |
        ⟨code, ver, snap, fc, srcs, cd, er2, g1, g2, g3, g4, g5, g6, hcs, hls, hee⟩ |
        ⟨code, ver, snap, fc, srcs, cd, data, er2, g1, g2, g3, g4, g5, g6, g7, g8, hcs, hls, hee⟩ |
        ⟨code, ver, snap, fc, srcs, cd, data, uuid, er2, g1, g2, g3, g4, g5, g6, g7, g8, g9, hcs, hls, hee⟩ |
        ⟨code, ver, snap, fc, srcs, cd, data, uuid, er2, g1, g2, g3, g4, g5, g6, g7, g8, g9, g10, hcs, hls, hee⟩ |
        ⟨code, ver, snap, fc, srcs, cd, data, uuid, issues, g1, g2, g3, g4, g5, g6, g7, g8, g9, g10, g11, hcs, hls, hee⟩ |
        ⟨code, ver, snap, fc, srcs, cd, data, uuid, issues, g1, g2, g3, g4, g5, g6, g7, g8, g9, g10, g11, hcs, hls, hee⟩ <;>
      subst hcs <;> simp at hmem
    all_goals obtain ⟨rfl, rfl⟩ := hmem
    all_goals exact ⟨by simp, g9⟩
  · rw [heq] at hmem ⊢
    simp only [TryRunCases, Prod.mk.injEq] at htc
    rcases htc with ⟨er2, g1, hcs, hls, hee⟩ |
        ⟨code, er2, g1, g2, hcs, hls, hee⟩ |
        ⟨code, ver, er2, g1, g2, g3, hcs, hls, hee⟩ |
        ⟨code, ver, snap, fc, er2, g1, g2, g3, g4, hcs, hls, hee⟩ |
        ⟨code, ver, snap, fc, srcs, er2, g1, g2, g3, g4, g5, hcs, hls, hee⟩ |
        ⟨code, ver, snap, fc, srcs, cd, er2, g1, g2, g3, g4, g5, g6, hcs, hls, hee⟩ |
        ⟨code, ver, snap, fc, srcs, cd, data, er2, g1, g2, g3, g4, g5, g6, g7, g8, hcs, hls, hee⟩ |
        ⟨code, ver, snap, fc, srcs, cd, data, uuid, er2, g1, g2, g3, g4, g5, g6, g7, g8, g9, hcs, hls, hee⟩ |
        ⟨code, ver, snap, fc, srcs, cd, data, uuid, er2, g1, g2, g3, g4, g5, g6, g7, g8, g9, g10, hcs, hls, hee⟩ |
        ⟨code, ver, snap, fc, srcs, cd, data, uuid, issues, g1, g2, g3, g4, g5, g6, g7, g8, g9, g10, g11, hcs, hls, hee⟩ |
        ⟨code, ver, snap, fc, srcs, cd, data, uuid, issues, g1, g2, g3, g4, g5, g6, g7, g8, g9, g10, g11, hcs, hls, hee⟩ <;>
      subst hcs <;> simp at hmem
    all_goals obtain ⟨rfl, rfl⟩ := hmem
    all_goals exact ⟨by simp, g9⟩

/-- Witness for C4: the successful quick run retrieves only after its
poll resolved. -/
theorem retrieval_only_after_poll_ok_witness :
    Call.getReport mxOK "uuid-1" ∈ (analyze wOK envT argsQ).calls ∧
    (Call.awaitAnalysisFinish mxOK "uuid-1" (pollDelay argsQ.mode) (pollTimeout argsQ.mode) ∈
        (analyze wOK envT argsQ).calls ∧
      wOK.awaitAnalysisFinish mxOK "uuid-1" (pollDelay argsQ.mode) (pollTimeout argsQ.mode) =
        .ok ()) :=
  ⟨by decide, retrieval_only_after_poll_ok wOK envT argsQ mxOK "uuid-1" (by decide)⟩

/-- Claim C7: a failed run (exit status 1) printed only debug messages
followed by the error cause, never printed any finding output (neither
a rendered block nor the success message), and invoked no stage twice. -/
theorem stage_error_fatal (w : World) (env : Env) (args : Args)
    (h : (analyze w env args).outcome = .exited 1) :
    (∃ dbg er, (analyze w env args).log = dbg ++ [Msg.error er] ∧
      ∀ m ∈ dbg, m.isDebug = true) ∧
    (∀ s, Msg.output s ∉ (analyze w env args).log) ∧
    (∀ f cn, Msg.noIssues f cn ∉ (analyze w env args).log) ∧
    (((analyze w env args).calls).map stageOf).Nodup := by
  obtain ⟨dbg, er, hlog, hdbg⟩ := analyze_error_log w env args h
  refine ⟨⟨dbg, er, hlog, hdbg⟩, ?_, ?_, analyze_stages_nodup w env args⟩
  · intro s hs2
    rw [hlog] at hs2
    rcases List.mem_append.mp hs2 with h2 | h2
    · have := hdbg _ h2
      simp [Msg.isDebug] at this
    · simp at h2
  · intro f cn hs2
    rw [hlog] at hs2
    rcases List.mem_append.mp hs2 with h2 | h2
    · have := hdbg _ h2
      simp [Msg.isDebug] at this
    · simp at h2

/-- Witness for C7: the run with the malformed constraint fails fatally
and repeats no stage. -/
theorem stage_error_fatal_witness :
    (analyze wVerFail envT argsQ).outcome = .exited 1 ∧
    (((analyze wVerFail envT argsQ).calls).map stageOf).Nodup :=
  ⟨by decide, (stage_error_fatal wVerFail envT argsQ (by decide)).2.2.2⟩

/-- Claim C6: a fully successful run completes; if the deduplicated
finding list is empty the last printed message is the no-errors success
message and no formatter is selected or run, otherwise the formatter
selected by `args.format` is applied to the list and its rendered block
is the last printed message. -/
theorem findings_render (w : World) (env : Env) (args : Args)
    (code ver snap : String) (fc : Bool) (srcs : List (String × String))
    (cd : CompiledData) (uuid : String) (issues : List Issue)
    (hm : args.mode ∈ modes) (hf : args.format ∈ formats)
    (h1 : w.readFile (w.resolvePath args.file) = .ok code)
    (h2 : w.getSolidityVersion code = .ok ver)
    (h3 : w.loadSolcVersion (w.releases ver) = .ok (snap, fc))
    (h4 : w.resolveAllSources (w.resolvePath args.file) snap = .ok srcs)
    (h5 : w.getCompiledContracts (w.getSolcInput srcs) snap (w.resolvePath args.file)
      args.contractTarget = .ok cd)
    (h6 : w.authenticate (w.initClient env.apiUrl (credEth env) (credPw env)) = .ok ())
    (h7 : w.submitDataForAnalysis (w.initClient env.apiUrl (credEth env) (credPw env))
      (w.getRequestData cd (srcs.map Prod.fst) (w.resolvePath args.file) args.mode) = .ok uuid)
    (h8 : w.awaitAnalysisFinish (w.initClient env.apiUrl (credEth env) (credPw env)) uuid
      (pollDelay args.mode) (pollTimeout args.mode) = .ok ())
    (h9 : w.getReport (w.initClient env.apiUrl (credEth env) (credPw env)) uuid = .ok issues) :
    (analyze w env args).outcome = .completed ∧
    (reducedFindings w args srcs cd issues = [] →
      (analyze w env args).log.getLast? =
        some (Msg.noIssues args.file cd.contractName) ∧
      Call.getFormatter args.format ∉ (analyze w env args).calls ∧
      Call.runFormatter ∉ (analyze w env args).calls) ∧
    (reducedFindings w args srcs cd issues ≠ [] →
      (analyze w env args).log.getLast? =
        some (Msg.output (w.getFormatter args.format (reducedFindings w args srcs cd issues))) ∧
      Call.getFormatter args.format ∈ (analyze w env args).calls ∧
      Call.runFormatter ∈ (analyze w env args).calls) := by
  have hv := analyze_valid w env args hm hf
  unfold tryRun at hv
  simp only [h1, h2, h3, h4, h5, h6, h7, h8, h9] at hv
  by_cases hU : reducedFindings w args srcs cd issues = []
  · have hU2 : (w.formatIssues
        ⟨(w.getRequestData cd (List.map Prod.fst srcs) (w.resolvePath args.file) args.mode).payload,
          (w.getSolcInput srcs).sources, cd.functionHashes⟩ issues).isEmpty = true := by
      rw [List.isEmpty_iff]
      simpa [reducedFindings] using hU
    simp only [hU2, if_true] at hv
    refine ⟨by rw [hv], fun _ => ?_, fun hne => absurd hU hne⟩
    refine ⟨?_, ?_, ?_⟩
    · simp only [hv]
      rw [List.getLast?_concat]
    · simp [hv]
    · simp [hv]
  · have hU2 : (w.formatIssues
        ⟨(w.getRequestData cd (List.map Prod.fst srcs) (w.resolvePath args.file) args.mode).payload,
          (w.getSolcInput srcs).sources, cd.functionHashes⟩ issues).isEmpty = false := by
      rw [Bool.eq_false_iff]
      intro hc
      exact hU (by simpa [reducedFindings] using List.isEmpty_iff.mp hc)
    simp only [hU2, Bool.false_eq_true, if_false] at hv
    refine ⟨by rw [hv], fun he => absurd he hU, fun _ => ?_⟩
    refine ⟨?_, ?_, ?_⟩
    · simp only [hv]
      rw [List.getLast?_concat]
      simp [reducedFindings]
    · simp [hv]
    · simp [hv]

/-- Witness for C6: the concrete successful run renders its two
findings with the text formatter. -/
theorem findings_render_witness :
    reducedFindings wOK argsQ [("/abs/c.sol", "body")]
        ⟨"MyContract", [("f()", "ab")], "bytecode"⟩ ["issue1", "issue2"] ≠ [] ∧
    (analyze wOK envT argsQ).outcome = .completed ∧
    (analyze wOK envT argsQ).log.getLast? = some (Msg.output "text:issue1,issue2") := by
  have h := findings_render wOK envT argsQ "pragma solidity 0.5.0;" "0.5.0" "solc5" true
    [("/abs/c.sol", "body")] ⟨"MyContract", [("f()", "ab")], "bytecode"⟩ "uuid-1"
    ["issue1", "issue2"] (by decide) (by decide) rfl rfl rfl rfl rfl rfl rfl rfl rfl
  exact ⟨by decide, h.1, (h.2.2 (by decide)).1⟩

/-- Claim C8: when either credential is falsy the run does not abort on
configuration: it substitutes the trial credentials and proceeds to
initialise the client and authenticate with them. -/
theorem trial_credentials_substituted (w : World) (env : Env) (args : Args)
    (code ver snap : String) (fc : Bool) (srcs : List (String × String)) (cd : CompiledData)
    (hm : args.mode ∈ modes) (hf : args.format ∈ formats)
    (hcred : (jsTruthy env.ethAddress && jsTruthy env.password) = false)
    (h1 : w.readFile (w.resolvePath args.file) = .ok code)
    (h2 : w.getSolidityVersion code = .ok ver)
    (h3 : w.loadSolcVersion (w.releases ver) = .ok (snap, fc))
    (h4 : w.resolveAllSources (w.resolvePath args.file) snap = .ok srcs)
    (h5 : w.getCompiledContracts (w.getSolcInput srcs) snap (w.resolvePath args.file)
      args.contractTarget = .ok cd) :
    credEth env = trialEthAddress ∧ credPw env = trialPassword ∧
    Call.initClient env.apiUrl trialEthAddress trialPassword ∈ (analyze w env args).calls ∧
    Call.authenticate (w.initClient env.apiUrl trialEthAddress trialPassword) ∈
      (analyze w env args).calls := by
  have hce : credEth env = trialEthAddress := by
    unfold credEth
    rw [hcred]
    simp
  have hcp : credPw env = trialPassword := by
    unfold credPw
    rw [hcred]
    simp
  have hboth : Call.initClient env.apiUrl trialEthAddress trialPassword ∈
        (tryRun w args env.apiUrl trialEthAddress trialPassword).1 ∧
      Call.authenticate (w.initClient env.apiUrl trialEthAddress trialPassword) ∈
        (tryRun w args env.apiUrl trialEthAddress trialPassword).1 := by
    unfold tryRun
    simp only [h1, h2, h3, h4, h5]
    cases hau : w.authenticate (w.initClient env.apiUrl trialEthAddress trialPassword) with
    | error e => simp [hau]
    | ok u =>
    obtain ⟨⟩ := u
    simp only [hau]
    cases hs : w.submitDataForAnalysis (w.initClient env.apiUrl trialEthAddress trialPassword)
        (w.getRequestData cd (List.map Prod.fst srcs) (w.resolvePath args.file) args.mode) with
    | error e => simp [hs]
    | ok uuid =>
    simp only [hs]
    cases ha : w.awaitAnalysisFinish (w.initClient env.apiUrl trialEthAddress trialPassword)
        uuid (pollDelay args.mode) (pollTimeout args.mode) with
    | error e => simp [ha]
    | ok u =>
    obtain ⟨⟩ := u
    simp only [ha]
    cases hrep : w.getReport (w.initClient env.apiUrl trialEthAddress trialPassword) uuid with
    | error e => simp [hrep]
    | ok issues =>
    simp only [hrep]
    split <;> simp
  refine ⟨hce, hcp, ?_, ?_⟩ <;> rw [analyze_calls_eq w env args hm hf, hce, hcp]
  · exact hboth.1
  · exact hboth.2

/-- Witness for C8: with no credentials set, the concrete run
authenticates with the trial account. -/
theorem trial_credentials_substituted_witness :
    (jsTruthy envT.ethAddress && jsTruthy envT.password) = false ∧
    credEth envT = trialEthAddress ∧
    Call.authenticate mxOK ∈ (analyze wOK envT argsQ).calls := by
  have h := trial_credentials_substituted wOK envT argsQ "pragma solidity 0.5.0;" "0.5.0"
    "solc5" true [("/abs/c.sol", "body")] ⟨"MyContract", [("f()", "ab")], "bytecode"⟩
    (by decide) (by decide) rfl rfl rfl rfl rfl rfl
  exact ⟨rfl, h.1, h.2.2.2⟩

/-- Claim C10: the debug flag does not influence results — two runs
identical but for `args.debug` make the same external calls (including
the submitted request body, recorded in `Call.submitData`), end the
same way, and print the same non-debug messages; debug only adds the
request/response logging blocks. -/
theorem debug_flag_noninterference (w : World) (env : Env) (args : Args) (d1 d2 : Bool) :
    (analyze w env { args with debug := d1 }).calls =
      (analyze w env { args with debug := d2 }).calls ∧
    (analyze w env { args with debug := d1 }).outcome =
      (analyze w env { args with debug := d2 }).outcome ∧
    ((analyze w env { args with debug := d1 }).log.filter (fun m => !m.isDebug) =
      (analyze w env { args with debug := d2 }).log.filter (fun m => !m.isDebug)) := by
  by_cases hm : args.mode ∈ modes
  · by_cases hf : args.format ∈ formats
    · have e1 := analyze_valid w env { args with debug := d1 } hm hf
      have e2 := analyze_valid w env { args with debug := d2 } hm hf
      have h := tryRun_debug w args env.apiUrl (credEth env) (credPw env) d1 d2
      rcases t1 : tryRun w { args with debug := d1 } env.apiUrl (credEth env) (credPw env)
        with ⟨cs1, ls1, r1⟩
      rcases t2 : tryRun w { args with debug := d2 } env.apiUrl (credEth env) (credPw env)
        with ⟨cs2, ls2, r2⟩
      rw [t1] at h e1
      rw [t2] at h e2
      obtain ⟨hcs, hr, hls⟩ := h
      dsimp only at hcs hr hls
      subst hcs
      subst hr
      cases r1 with
      | error er =>
        rw [e1, e2]
        refine ⟨rfl, rfl, ?_⟩
        simp only [List.filter_append, hls]
      | ok u =>
        obtain ⟨⟩ := u
        rw [e1, e2]
        exact ⟨rfl, rfl, hls⟩
    · rw [analyze_invalid_format w env { args with debug := d1 } hm hf,
        analyze_invalid_format w env { args with debug := d2 } hm hf]
      exact ⟨rfl, rfl, rfl⟩
  · rw [analyze_invalid_mode w env { args with debug := d1 } hm,
      analyze_invalid_mode w env { args with debug := d2 } hm]
    exact ⟨rfl, rfl, rfl⟩

end Sabre
